import Mathlib

/-!
Verification of the quant market-data decode pipeline.

The decoders of `decompression_utils.py` are embedded as pure Lean
functions over structures that mirror the generated protobuf messages
(proto3 implicit presence: an absent scalar field reads as `0`, so scalar
fields are plain `Int`; message-typed fields checked with `HasField` are
`Option`).  Python float division by a power of ten is modelled over `ℚ`.
Library calls (zstd inflation, `ParseFromString`, `bytes.decode` +
`json.loads`) are modelled as the *result* of the call, supplied as input:
a parse either fails (the Python exception) or yields the parsed message.
The channel-routing logic of `main.py` (`on_group_message`) is embedded
over those same inputs.
-/

/-- Python `x or d` on integers: `x` is falsy exactly when it is `0`. -/
def pyOrInt (x d : Int) : Int := if x = 0 then d else x

/-- Nested proto message holding a repeated integer field `values`
(used by `Strike.priors` and `MiniContract.put_cvolume_priors`). -/
structure PriorValues where
  values : List Int
deriving DecidableEq

/-- One entry of `Gex.strikes` (gex_pb2). -/
structure Strike where
  strike_price : Int
  value_1 : Int
  value_2 : Int
  priors : Option PriorValues
deriving DecidableEq

/-- One entry of `MaxPriors.tuples` (gex_pb2). -/
structure PriorTuple where
  first_value : Int
  second_value : Int
deriving DecidableEq

/-- Optional message field `Gex.max_priors` with its repeated `tuples`. -/
structure MaxPriors where
  tuples : List PriorTuple
deriving DecidableEq

/-- The `gex_pb2.Gex` protobuf message, as read by the decoder. -/
structure Gex where
  timestamp : Int
  ticker : String
  min_dte : Int
  sec_min_dte : Int
  spot : Int
  zero_gamma : Int
  major_pos_vol : Int
  major_pos_oi : Int
  major_neg_vol : Int
  major_neg_oi : Int
  strikes : List Strike
  sum_gex_vol : Int
  sum_gex_oi : Int
  delta_risk_reversal : Int
  max_priors : Option MaxPriors
deriving DecidableEq

/-- The dict built by `decompress_gex_message` (decompression_utils.py 33-66). -/
structure GexRecord where
  timestamp : Int
  ticker : String
  min_dte : Int
  sec_min_dte : Int
  spot : ℚ
  zero_gamma : ℚ
  major_pos_vol : ℚ
  major_pos_oi : ℚ
  major_neg_vol : ℚ
  major_neg_oi : ℚ
  strikes : List (ℚ × ℚ × ℚ × List ℚ)
  sum_gex_vol : ℚ
  sum_gex_oi : ℚ
  delta_risk_reversal : ℚ
  max_priors : List (ℚ × ℚ)
deriving DecidableEq

/-- `decompress_gex_message`, decompression_utils.py lines 19-68, after the
zstd and `ParseFromString` library calls (modelled by taking the parsed
`Gex` message as input). -/
def decompress_gex_message (m : Gex) : GexRecord :=
  { timestamp := m.timestamp
    ticker := m.ticker
    min_dte := pyOrInt m.min_dte 0
    sec_min_dte := pyOrInt m.sec_min_dte 1
    spot := (pyOrInt m.spot 0 : ℚ) / 100
    zero_gamma := (pyOrInt m.zero_gamma 0 : ℚ) / 100
    major_pos_vol := (pyOrInt m.major_pos_vol 0 : ℚ) / 100
    major_pos_oi := (pyOrInt m.major_pos_oi 0 : ℚ) / 100
    major_neg_vol := (pyOrInt m.major_neg_vol 0 : ℚ) / 100
    major_neg_oi := (pyOrInt m.major_neg_oi 0 : ℚ) / 100
    strikes := m.strikes.map fun s =>
      ((pyOrInt s.strike_price 0 : ℚ) / 100,
       (pyOrInt s.value_1 0 : ℚ) / 100,
       (pyOrInt s.value_2 0 : ℚ) / 100,
       match s.priors with
       | some p => p.values.map fun v => (v : ℚ) / 100
       | none => [])
    sum_gex_vol := (pyOrInt m.sum_gex_vol 0 : ℚ) / 1000
    sum_gex_oi := (pyOrInt m.sum_gex_oi 0 : ℚ) / 1000
    delta_risk_reversal := (pyOrInt m.delta_risk_reversal 0 : ℚ) / 1000
    max_priors :=
      match m.max_priors with
      | some mp => mp.tuples.map fun t =>
          ((pyOrInt t.first_value 0 : ℚ) / 100,
           (pyOrInt t.second_value 0 : ℚ) / 1000)
      | none => [] }

/-- A JSON value as produced by Python `json.loads` (`null` also stands for
Python `None`, which `json.loads` decodes `null` to). -/
inductive JsonVal where
  | null : JsonVal
  | bool (b : Bool) : JsonVal
  | num (q : ℚ) : JsonVal
  | str (s : String) : JsonVal
  | arr (xs : List JsonVal) : JsonVal
  | obj (kvs : List (String × JsonVal)) : JsonVal

/-- Python truthiness of a JSON value. -/
def JsonVal.truthy : JsonVal → Bool
  | .null => false
  | .bool b => b
  | .num q => decide (q ≠ 0)
  | .str s => decide (s ≠ "")
  | .arr xs => !xs.isEmpty
  | .obj kvs => !kvs.isEmpty

/-- Python `v or d` on JSON values. -/
def pyOrJson (v d : JsonVal) : JsonVal := if v.truthy then v else d

/-- Python `dict.get` without default on a `json.loads` object: `none` means
the key is absent (duplicate keys: last binding wins, as in `json.loads`). -/
def jget (kvs : List (String × JsonVal)) (k : String) : Option JsonVal :=
  kvs.reverse.lookup k

/-- Outcome of `decompressed_bytes.decode(utf-8)` followed by `json.loads`:
the two library exceptions, or the parsed document. -/
inductive JsonParse where
  | invalidUtf8 : JsonParse
  | invalidJson : JsonParse
  | parsed (v : JsonVal) : JsonParse

/-- A decoded JSON-variant mini-contract row, positional as in the source:
strike, call_ivol, put_ivol, call_cvolume, call_cvolume_priors,
put_cvolume, put_cvolume_priors. -/
abbrev JsonMiniRow :=
  JsonVal × JsonVal × JsonVal × JsonVal × JsonVal × JsonVal × JsonVal

/-- One `mc` of the JSON-path list comprehension (decompression_utils.py
97-108): positional indexing `mc[0]`..`mc[6]` raises on a short row, and
`mc[4] or []`, `mc[5] or 0`, `mc[6] or []` apply Python truthiness.  A
non-sequence element cannot satisfy all seven indexings and is an error. -/
def jsonMini : JsonVal → Except String JsonMiniRow
  | .arr (x0 :: x1 :: x2 :: x3 :: x4 :: x5 :: x6 :: _) =>
      .ok (x0, x1, x2, x3,
           pyOrJson x4 (.arr []), pyOrJson x5 (.num 0), pyOrJson x6 (.arr []))
  | .arr _ => .error "IndexError"
  | _ => .error "TypeError"

/-- Iterating `raw_profile.get(mini_contracts, [])`: anything but a JSON
array fails the comprehension. -/
def jsonMinis : JsonVal → Except String (List JsonMiniRow)
  | .arr xs => xs.mapM jsonMini
  | _ => .error "TypeError"

/-- The dict built by the JSON sub-path of `decompress_greek_message`
(decompression_utils.py 87-109).  `timestamp`/`ticker` use `dict.get` with
no default, so an absent key yields Python `None`, i.e. `JsonVal.null`. -/
structure GreekJsonRecord where
  timestamp : JsonVal
  ticker : JsonVal
  spot : JsonVal
  min_dte : JsonVal
  sec_min_dte : JsonVal
  major_positive : JsonVal
  major_negative : JsonVal
  major_long_gamma : JsonVal
  major_short_gamma : JsonVal
  mini_contracts : List JsonMiniRow

/-- JSON sub-path of `decompress_greek_message` (lines 82-110): the two
decode exceptions, `.get` on a non-dict document, then field-by-field
defaulted lookup. -/
def jsonSub : JsonParse → Except String GreekJsonRecord
  | .invalidUtf8 => .error "UnicodeDecodeError"
  | .invalidJson => .error "JSONDecodeError"
  | .parsed (.obj kvs) =>
      match jsonMinis ((jget kvs "mini_contracts").getD (.arr [])) with
      | .error e => .error e
      | .ok rows =>
          .ok { timestamp := (jget kvs "timestamp").getD .null
                ticker := (jget kvs "ticker").getD .null
                spot := (jget kvs "spot").getD (.num 0)
                min_dte := (jget kvs "min_dte").getD (.num 0)
                sec_min_dte := (jget kvs "sec_min_dte").getD (.num 1)
                major_positive := (jget kvs "major_call_gamma").getD (.num 0)
                major_negative := (jget kvs "major_put_gamma").getD (.num 0)
                major_long_gamma := (jget kvs "major_long_gamma").getD (.num 0)
                major_short_gamma := (jget kvs "major_short_gamma").getD (.num 0)
                mini_contracts := rows }
  | .parsed _ => .error "AttributeError"

/-- One entry of `OptionProfile.mini_contracts` (option_profile_pb2). -/
structure MiniContract where
  strike : Int
  call_ivol : Int
  put_ivol : Int
  call_cvolume : Int
  call_cvolume_priors : List Int
  put_cvolume : Int
  put_cvolume_priors : Option PriorValues
deriving DecidableEq

/-- The `option_profile_pb2.OptionProfile` protobuf message. -/
structure OptionProfile where
  timestamp : Int
  ticker : String
  spot : Int
  min_dte : Int
  sec_min_dte : Int
  major_call_gamma : Int
  major_put_gamma : Int
  major_long_gamma : Int
  major_short_gamma : Int
  mini_contracts : List MiniContract
deriving DecidableEq

/-- A decoded binary-variant mini-contract row: strike, call_ivol,
put_ivol, call_cvolume scaled to `ℚ`; call_cvolume_priors scaled; raw
put_cvolume; raw put_cvolume_priors. -/
abbrev BinMiniRow := ℚ × ℚ × ℚ × ℚ × List ℚ × Int × List Int

/-- The dict built by the protobuf sub-path of `decompress_greek_message`
(decompression_utils.py 117-142). -/
structure GreekBinRecord where
  timestamp : Int
  ticker : String
  spot : ℚ
  min_dte : Int
  sec_min_dte : Int
  major_positive : ℚ
  major_negative : ℚ
  major_long_gamma : ℚ
  major_short_gamma : ℚ
  mini_contracts : List BinMiniRow

/-- Protobuf sub-path of `decompress_greek_message` (lines 112-143), after
`ParseFromString` (modelled by taking the parsed message as input). -/
def protoSub (m : OptionProfile) : GreekBinRecord :=
  { timestamp := m.timestamp
    ticker := m.ticker
    spot := (pyOrInt m.spot 0 : ℚ) / 100
    min_dte := pyOrInt m.min_dte 0
    sec_min_dte := pyOrInt m.sec_min_dte 1
    major_positive := (pyOrInt m.major_call_gamma 0 : ℚ) / 100
    major_negative := (pyOrInt m.major_put_gamma 0 : ℚ) / 100
    major_long_gamma := (pyOrInt m.major_long_gamma 0 : ℚ) / 100
    major_short_gamma := (pyOrInt m.major_short_gamma 0 : ℚ) / 100
    mini_contracts := m.mini_contracts.map fun mc =>
      ((pyOrInt mc.strike 0 : ℚ) / 100,
       (pyOrInt mc.call_ivol 0 : ℚ) / 1000,
       (pyOrInt mc.put_ivol 0 : ℚ) / 1000,
       (pyOrInt mc.call_cvolume 0 : ℚ) / 100,
       mc.call_cvolume_priors.map (fun v => (pyOrInt v 0 : ℚ) / 100),
       pyOrInt mc.put_cvolume 0,
       match mc.put_cvolume_priors with
       | some p => p.values.map id
       | none => []) }

/-- The decompressed payload of a greek envelope, viewed through each of
the two library parsers the two sub-paths hand it to. -/
structure GreekBytes where
  asJson : JsonParse
  asProto : Option OptionProfile

/-- A decoded OptionProfile record, tagged by the sub-path that produced it. -/
inductive GreekRecord where
  | json (r : GreekJsonRecord) : GreekRecord
  | binary (r : GreekBinRecord) : GreekRecord

/-- A `decompress_greek_message` failure, tagged by the sub-path it arose on. -/
inductive GreekErr where
  | jsonError (cause : String) : GreekErr
  | protoError (cause : String) : GreekErr

/-- The categories routed to the JSON sub-path, the tuple at
decompression_utils.py line 82. -/
def jsonCategories : List String := ["volume_zero", "volume_one"]

/-- `decompress_greek_message` (decompression_utils.py 71-143): branch on
`current_category in (volume_zero, volume_one)`. -/
def decompress_greek_message (b : GreekBytes) (current_category : String) :
    Except GreekErr GreekRecord :=
  if current_category ∈ jsonCategories then
    ((jsonSub b.asJson).map GreekRecord.json).mapError GreekErr.jsonError
  else
    match b.asProto with
    | some m => .ok (.binary (protoSub m))
    | none => .error (.protoError "DecodeError")

/-- The `orderflow_pb2.Orderflow` protobuf message. -/
structure Orderflow where
  timestamp : Int
  ticker : String
  spot : Int
  zero_major_long_gamma : Int
  zero_major_short_gamma : Int
  one_major_long_gamma : Int
  one_major_short_gamma : Int
  zero_major_call_gamma : Int
  zero_major_put_gamma : Int
  one_major_call_gamma : Int
  one_major_put_gamma : Int
  zero_convexity_ratio : Int
  one_convexity_ratio : Int
  zero_gex_ratio : Int
  one_gex_ratio : Int
  zero_net_vanna : Int
  one_net_vanna : Int
  zero_net_charm : Int
  one_net_charm : Int
  zero_agg_total_dex : Int
  one_agg_total_dex : Int
  zero_agg_call_dex : Int
  one_agg_call_dex : Int
  zero_agg_put_dex : Int
  one_agg_put_dex : Int
  zero_net_total_dex : Int
  one_net_total_dex : Int
  zero_net_call_dex : Int
  one_net_call_dex : Int
  zero_net_put_dex : Int
  one_net_put_dex : Int
  dex_orderflow : Int
  gex_orderflow : Int
  convexity_orderflow : Int
  one_dex_orderflow : Int
  one_gex_orderflow : Int
  one_convexity_orderflow : Int
deriving DecidableEq

/-- The dict built by `decompress_orderflow_message`
(decompression_utils.py 160-202). -/
structure OrderflowRecord where
  timestamp : Int
  ticker : String
  spot : ℚ
  zero_major_long_gamma : ℚ
  zero_major_short_gamma : ℚ
  one_major_long_gamma : ℚ
  one_major_short_gamma : ℚ
  zero_major_call_gamma : ℚ
  zero_major_put_gamma : ℚ
  one_major_call_gamma : ℚ
  one_major_put_gamma : ℚ
  zero_convexity_ratio : Int
  one_convexity_ratio : Int
  zero_gex_ratio : Int
  one_gex_ratio : Int
  zero_net_vanna : Int
  one_net_vanna : Int
  zero_net_charm : Int
  one_net_charm : Int
  zero_agg_total_dex : Int
  one_agg_total_dex : Int
  zero_agg_call_dex : Int
  one_agg_call_dex : Int
  zero_agg_put_dex : Int
  one_agg_put_dex : Int
  zero_net_total_dex : Int
  one_net_total_dex : Int
  zero_net_call_dex : Int
  one_net_call_dex : Int
  zero_net_put_dex : Int
  one_net_put_dex : Int
  dex_orderflow : Int
  gex_orderflow : Int
  convexity_orderflow : Int
  one_dex_orderflow : Int
  one_gex_orderflow : Int
  one_convexity_orderflow : Int
deriving DecidableEq

/-- `decompress_orderflow_message` (decompression_utils.py 146-203), after
the zstd and `ParseFromString` library calls. -/
def decompress_orderflow_message (m : Orderflow) : OrderflowRecord :=
  { timestamp := m.timestamp
    ticker := m.ticker
    spot := (pyOrInt m.spot 0 : ℚ) / 100
    zero_major_long_gamma := (pyOrInt m.zero_major_long_gamma 0 : ℚ) / 100
    zero_major_short_gamma := (pyOrInt m.zero_major_short_gamma 0 : ℚ) / 100
    one_major_long_gamma := (pyOrInt m.one_major_long_gamma 0 : ℚ) / 100
    one_major_short_gamma := (pyOrInt m.one_major_short_gamma 0 : ℚ) / 100
    zero_major_call_gamma := (pyOrInt m.zero_major_call_gamma 0 : ℚ) / 100
    zero_major_put_gamma := (pyOrInt m.zero_major_put_gamma 0 : ℚ) / 100
    one_major_call_gamma := (pyOrInt m.one_major_call_gamma 0 : ℚ) / 100
    one_major_put_gamma := (pyOrInt m.one_major_put_gamma 0 : ℚ) / 100
    zero_convexity_ratio := m.zero_convexity_ratio
    one_convexity_ratio := m.one_convexity_ratio
    zero_gex_ratio := m.zero_gex_ratio
    one_gex_ratio := m.one_gex_ratio
    zero_net_vanna := m.zero_net_vanna
    one_net_vanna := m.one_net_vanna
    zero_net_charm := m.zero_net_charm
    one_net_charm := m.one_net_charm
    zero_agg_total_dex := m.zero_agg_total_dex
    one_agg_total_dex := m.one_agg_total_dex
    zero_agg_call_dex := m.zero_agg_call_dex
    one_agg_call_dex := m.one_agg_call_dex
    zero_agg_put_dex := m.zero_agg_put_dex
    one_agg_put_dex := m.one_agg_put_dex
    zero_net_total_dex := m.zero_net_total_dex
    one_net_total_dex := m.one_net_total_dex
    zero_net_call_dex := m.zero_net_call_dex
    one_net_call_dex := m.one_net_call_dex
    zero_net_put_dex := m.zero_net_put_dex
    one_net_put_dex := m.one_net_put_dex
    dex_orderflow := m.dex_orderflow
    gex_orderflow := m.gex_orderflow
    convexity_orderflow := m.convexity_orderflow
    one_dex_orderflow := m.one_dex_orderflow
    one_gex_orderflow := m.one_gex_orderflow
    one_convexity_orderflow := m.one_convexity_orderflow }

/-- The signed-integer state fields of a decoded orderflow record, in the
order of the source block commented State fields (sint32, no multiplier)
at decompression_utils.py 173-193. -/
def OrderflowRecord.stateFields (r : OrderflowRecord) : List Int :=
  [r.zero_convexity_ratio, r.one_convexity_ratio,
   r.zero_gex_ratio, r.one_gex_ratio,
   r.zero_net_vanna, r.one_net_vanna,
   r.zero_net_charm, r.one_net_charm,
   r.zero_agg_total_dex, r.one_agg_total_dex,
   r.zero_agg_call_dex, r.one_agg_call_dex,
   r.zero_agg_put_dex, r.one_agg_put_dex,
   r.zero_net_total_dex, r.one_net_total_dex,
   r.zero_net_call_dex, r.one_net_call_dex,
   r.zero_net_put_dex, r.one_net_put_dex]

/-- Python `str.split` on a non-empty separator, scanning left to right over
non-overlapping occurrences.  `skip` counts separator characters still being
consumed after a match; `acc` is the current segment, reversed. -/
def splitGo (sep : List Char) : List Char → Nat → List Char → List (List Char)
  | [], _, acc => [acc.reverse]
  | _ :: rest, skip + 1, acc => splitGo sep rest skip acc
  | c :: rest, 0, acc =>
    if sep.isPrefixOf (c :: rest) then
      acc.reverse :: splitGo sep rest (sep.length - 1) []
    else
      splitGo sep rest 0 (c :: acc)

/-- Python `s.split(sep)` for non-empty `sep`, on character lists. -/
def pySplit (sep s : List Char) : List (List Char) := splitGo sep s 0 []

/-- Python `sub in s` substring membership. -/
def pyIn (sub s : String) : Bool := decide (sub.data <:+: s.data)

/-- The ordered package-token list of main.py line 231. -/
def knownPackages : List String := ["classic", "state", "orderflow"]

/-- The loop of main.py lines 233-239: first package token whose delimiter
occurs in the channel id wins; the category is the last field of the split,
Python `event.group.split(separator)[-1]`. -/
def extractLoop (channel : String) : List String → String
  | [] => ""
  | pkg :: rest =>
    let sep := "_" ++ pkg ++ "_"
    if pyIn sep channel then
      String.mk ((pySplit sep.data channel.data).getLastD [])
    else
      extractLoop channel rest

/-- Category extraction from a channel identifier (main.py 230-239):
`current_category` starts empty and keeps its value only when some package
delimiter matches. -/
def extract_category (channel : String) : String :=
  extractLoop channel knownPackages

/-- Lines 241-245: a falsy (empty) extracted category drops the envelope,
so a resolved category is reported as `some`. -/
def resolveCategory (channel : String) : Option String :=
  let c := extract_category channel
  if c = "" then none else some c

/-- A group-message event as seen by `on_group_message`: the channel id,
the `type_url` of the parsed `Any`, and the inner payload viewed through
each schema parser it may be handed to (a `none` view models a
`ParseFromString` failure for that schema). -/
structure GroupEvent where
  group : String
  type_url : String
  gexView : Option Gex
  greekView : GreekBytes
  orderflowView : Option Orderflow

/-- Observable outcome of `on_group_message`: early drop on a missing
category, a decoded record per family, an unknown type tag, or the
catch-all exception handler of main.py line 278. -/
inductive RouteResult where
  | dropped : RouteResult
  | gexRecord (r : GexRecord) : RouteResult
  | greekRecord (r : GreekRecord) : RouteResult
  | orderflowRecord (r : OrderflowRecord) : RouteResult
  | unknownType (type_url : String) : RouteResult
  | parseFailure : RouteResult

/-- `WebPubSubClientManager.on_group_message` (main.py 214-280): category
extraction and the empty-category early return come first, then the
substring tests on `type_url` in the order gex, greek, orderflow. -/
def on_group_message (e : GroupEvent) : RouteResult :=
  match resolveCategory e.group with
  | none => .dropped
  | some cat =>
    if pyIn "proto.gex" e.type_url then
      match e.gexView with
      | some m => .gexRecord (decompress_gex_message m)
      | none => .parseFailure
    else if pyIn "proto.greek" e.type_url then
      match decompress_greek_message e.greekView cat with
      | .ok r => .greekRecord r
      | .error _ => .parseFailure
    else if pyIn "proto.orderflow" e.type_url then
      match e.orderflowView with
      | some m => .orderflowRecord (decompress_orderflow_message m)
      | none => .parseFailure
    else
      .unknownType e.type_url

/-- A concrete `Gex` message with every scalar zero (all wire fields
absent under proto3 implicit presence). -/
def gexMsg0 : Gex :=
  { timestamp := 1700000000, ticker := "SPX", min_dte := 0, sec_min_dte := 0,
    spot := 0, zero_gamma := 0, major_pos_vol := 0, major_pos_oi := 0,
    major_neg_vol := 0, major_neg_oi := 0, strikes := [], sum_gex_vol := 0,
    sum_gex_oi := 0, delta_risk_reversal := 0, max_priors := none }

/-- A concrete `OptionProfile` message exercising the mini-contract
scaling, with `sec_min_dte` at its wire default. -/
def opMsg0 : OptionProfile :=
  { timestamp := 1700000000, ticker := "SPX", spot := 52000, min_dte := 0,
    sec_min_dte := 0, major_call_gamma := 100, major_put_gamma := -100,
    major_long_gamma := 0, major_short_gamma := 0,
    mini_contracts :=
      [{ strike := 500, call_ivol := 2000, put_ivol := 3000,
         call_cvolume := 400, call_cvolume_priors := [100, 250],
         put_cvolume := 7, put_cvolume_priors := some { values := [9, -3] } }] }

/-- A concrete `Orderflow` message echoing the end-to-end scenario of the
spec: spot 52000 on the wire, one negative dex state field. -/
def ofMsg0 : Orderflow :=
  { timestamp := 1700000000, ticker := "SPX", spot := 52000,
    zero_major_long_gamma := 0, zero_major_short_gamma := 0,
    one_major_long_gamma := 0, one_major_short_gamma := 0,
    zero_major_call_gamma := 0, zero_major_put_gamma := 0,
    one_major_call_gamma := 0, one_major_put_gamma := 0,
    zero_convexity_ratio := 0, one_convexity_ratio := 0,
    zero_gex_ratio := 0, one_gex_ratio := 0,
    zero_net_vanna := 0, one_net_vanna := 0,
    zero_net_charm := 0, one_net_charm := 0,
    zero_agg_total_dex := -7, one_agg_total_dex := 0,
    zero_agg_call_dex := 0, one_agg_call_dex := 0,
    zero_agg_put_dex := 0, one_agg_put_dex := 0,
    zero_net_total_dex := 0, one_net_total_dex := 0,
    zero_net_call_dex := 0, one_net_call_dex := 0,
    zero_net_put_dex := 0, one_net_put_dex := 0,
    dex_orderflow := 0, gex_orderflow := 0, convexity_orderflow := 0,
    one_dex_orderflow := 0, one_gex_orderflow := 0,
    one_convexity_orderflow := 0 }

/-- A concrete JSON document carrying only a `spot` key. -/
def kvs0 : List (String × JsonVal) := [("spot", JsonVal.num 5)]

/-- The record the JSON sub-path builds from `kvs0`: every other field at
its documented default. -/
def jRec0 : GreekJsonRecord :=
  { timestamp := .null, ticker := .null, spot := .num 5, min_dte := .num 0,
    sec_min_dte := .num 1, major_positive := .num 0, major_negative := .num 0,
    major_long_gamma := .num 0, major_short_gamma := .num 0,
    mini_contracts := [] }

/-- Which sub-path produced a greek decode outcome (ok or error). -/
def tookJsonPath : Except GreekErr GreekRecord → Bool
  | .ok (.json _) => true
  | .error (.jsonError _) => true
  | _ => false

/-- A gex-tagged event on a channel with no recognizable package token. -/
def evGexNoCat : GroupEvent :=
  { group := "badchannel", type_url := "proto.gex.Gex", gexView := some gexMsg0,
    greekView := { asJson := .invalidJson, asProto := none }, orderflowView := none }

/-- A gex-tagged event on a well-formed classic channel. -/
def evGex1 : GroupEvent :=
  { group := "blue_SPX_classic_gex_full", type_url := "proto.gex.Gex",
    gexView := some gexMsg0,
    greekView := { asJson := .invalidJson, asProto := none }, orderflowView := none }

/-- An orderflow-tagged event on a well-formed orderflow channel. -/
def evOf1 : GroupEvent :=
  { group := "blue_SPX_orderflow_orderflow", type_url := "proto.orderflow.Orderflow",
    gexView := none,
    greekView := { asJson := .invalidJson, asProto := none },
    orderflowView := some ofMsg0 }

theorem string_data_append (s t : String) : (s ++ t).data = s.data ++ t.data := by
  cases s
  cases t
  rfl

theorem pyOrInt_zero (x : Int) : pyOrInt x 0 = x := by
  rw [pyOrInt]
  split <;> simp_all

theorem splitGo_skip (sep : List Char) :
    ∀ (x t acc : List Char), splitGo sep (x ++ t) x.length acc = splitGo sep t 0 acc := by
  intro x
  induction x with
  | nil => intro t acc; rfl
  | cons c x ih =>
    intro t acc
    show splitGo sep (c :: (x ++ t)) (x.length + 1) acc = splitGo sep t 0 acc
    rw [splitGo]
    exact ih t acc

theorem splitGo_no_sep (sep : List Char) :
    ∀ (s acc : List Char), ¬ (sep <:+: s) → splitGo sep s 0 acc = [acc.reverse ++ s] := by
  intro s
  induction s with
  | nil => intro acc _; simp [splitGo]
  | cons c rest ih =>
    intro acc h
    have hp : sep.isPrefixOf (c :: rest) = false := by
      rw [Bool.eq_false_iff]
      intro hb
      exact h (List.isPrefixOf_iff_prefix.mp hb).isInfix
    rw [splitGo, hp]
    simp only [Bool.false_eq_true, if_false]
    rw [ih (c :: acc) (fun hin => h (List.infix_cons hin))]
    simp

theorem splitGo_delim (sep : List Char) (hne : sep ≠ []) :
    ∀ (a b acc : List Char), ¬ (sep <:+: (a ++ sep.dropLast)) →
      splitGo sep (a ++ (sep ++ b)) 0 acc = (acc.reverse ++ a) :: splitGo sep b 0 [] := by
  intro a
  induction a with
  | nil =>
    intro b acc _
    obtain ⟨d, ds, hds⟩ := List.exists_cons_of_ne_nil hne
    subst hds
    show splitGo (d :: ds) (d :: (ds ++ b)) 0 acc = (acc.reverse ++ []) :: splitGo (d :: ds) b 0 []
    have hp : (d :: ds).isPrefixOf (d :: (ds ++ b)) = true := by
      rw [List.isPrefixOf_iff_prefix]
      exact ⟨b, rfl⟩
    rw [splitGo, hp]
    simp only [if_true, List.length_cons, Nat.add_sub_cancel, List.append_nil]
    rw [splitGo_skip]
  | cons c a' ih =>
    intro b acc H
    have hsub : ¬ (sep <:+: (a' ++ sep.dropLast)) := fun hin => H (List.infix_cons hin)
    have hp : sep.isPrefixOf (c :: (a' ++ (sep ++ b))) = false := by
      rw [Bool.eq_false_iff]
      intro hb
      have hpre : sep <+: (c :: (a' ++ (sep ++ b))) := List.isPrefixOf_iff_prefix.mp hb
      have h2 : ((c :: a') ++ sep.dropLast) <+: (c :: (a' ++ (sep ++ b))) := by
        refine ⟨[sep.getLast hne] ++ b, ?_⟩
        calc ((c :: a') ++ sep.dropLast) ++ ([sep.getLast hne] ++ b)
            = (c :: a') ++ ((sep.dropLast ++ [sep.getLast hne]) ++ b) := by
              simp [List.append_assoc]
          _ = (c :: a') ++ (sep ++ b) := by rw [List.dropLast_append_getLast hne]
          _ = c :: (a' ++ (sep ++ b)) := rfl
      have hspos : 0 < sep.length := List.length_pos.mpr hne
      have hlen : sep.length ≤ ((c :: a') ++ sep.dropLast).length := by
        simp only [List.length_append, List.length_cons, List.length_dropLast]
        omega
      exact H (List.prefix_of_prefix_length_le hpre h2 hlen).isInfix
    show splitGo sep (c :: (a' ++ (sep ++ b))) 0 acc =
      (acc.reverse ++ (c :: a')) :: splitGo sep b 0 []
    rw [splitGo, hp]
    simp only [Bool.false_eq_true, if_false]
    rw [ih b (c :: acc) hsub]
    simp

theorem pySplit_delim (sep a b : List Char) (hne : sep ≠ [])
    (h1 : ¬ (sep <:+: (a ++ sep.dropLast))) (h2 : ¬ (sep <:+: b)) :
    pySplit sep (a ++ (sep ++ b)) = [a, b] := by
  unfold pySplit
  rw [splitGo_delim sep hne a b [] h1, splitGo_no_sep sep b [] h2]
  simp

theorem extract_category_state_split (channel : String) (a b : List Char)
    (hch : channel.data = a ++ ("_state_".data ++ b))
    (h1 : pyIn "_classic_" channel = false)
    (h2 : ¬ ("_state_".data <:+: (a ++ "_state".data)))
    (h3 : ¬ ("_state_".data <:+: b)) :
    extract_category channel = String.mk b := by
  have e1 : ("_" ++ "classic" ++ "_") = "_classic_" := by decide
  have e2 : ("_" ++ "state" ++ "_") = "_state_" := by decide
  have hst : pyIn "_state_" channel = true := by
    apply decide_eq_true
    exact ⟨a, b, by rw [hch]; simp [List.append_assoc]⟩
  have hdl : ("_state_".data.dropLast) = "_state".data := by decide
  have hne : "_state_".data ≠ [] := by decide
  unfold extract_category knownPackages
  simp only [extractLoop, e1, e2, h1, hst, Bool.false_eq_true, if_false, if_true]
  rw [hch, pySplit_delim "_state_".data a b hne (by rw [hdl]; exact h2) h3]
  rfl

/-- C2 counterexample: a ticker containing the `classic` delimiter is matched
first, so extraction returns a prefix-contaminated category instead of the
token after `_state_`. -/
theorem extract_category_classic_contamination :
    extract_category "blue_A_classic_B_state_volume_zero" = "B_state_volume_zero" ∧
    "B_state_volume_zero" ≠ "volume_zero" := by
  constructor
  · decide
  · decide

/-- C2 (amended): for a channel `blue_<ticker>_state_<cat>` in which no
`_classic_` delimiter occurs and `_state_` occurs only as the intended
separator, extraction returns the full category token; and when none of the
package delimiters occurs in the channel id, resolution reports no
category. -/
theorem category_extraction_correct :
    (∀ ticker cat : String,
       pyIn "_classic_" ("blue_" ++ ticker ++ "_state_" ++ cat) = false →
       pyIn "_state_" ("blue_" ++ ticker ++ "_state") = false →
       pyIn "_state_" cat = false →
       extract_category ("blue_" ++ ticker ++ "_state_" ++ cat) = cat) ∧
    (∀ channel : String,
       (∀ pkg ∈ knownPackages, pyIn ("_" ++ pkg ++ "_") channel = false) →
       resolveCategory channel = none) := by
  constructor
  · intro ticker cat h1 h2 h3
    have hch : ("blue_" ++ ticker ++ "_state_" ++ cat).data =
        ("blue_" ++ ticker).data ++ ("_state_".data ++ cat.data) := by
      simp [string_data_append, List.append_assoc]
    have h2' : ¬ ("_state_".data <:+: (("blue_" ++ ticker).data ++ "_state".data)) := by
      intro hin
      have : ("blue_" ++ ticker).data ++ "_state".data =
          ("blue_" ++ ticker ++ "_state").data := by
        simp [string_data_append]
      rw [this] at hin
      exact (of_decide_eq_false h2) hin
    have h3' : ¬ ("_state_".data <:+: cat.data) := of_decide_eq_false h3
    rw [extract_category_state_split _ _ _ hch h1 h2' h3']
  · intro channel h
    have e1 : ("_" ++ "classic" ++ "_") = "_classic_" := by decide
    have e2 : ("_" ++ "state" ++ "_") = "_state_" := by decide
    have e3 : ("_" ++ "orderflow" ++ "_") = "_orderflow_" := by decide
    have hc := h "classic" (by simp [knownPackages])
    have hs := h "state" (by simp [knownPackages])
    have ho := h "orderflow" (by simp [knownPackages])
    rw [e1] at hc
    rw [e2] at hs
    rw [e3] at ho
    simp [resolveCategory, extract_category, knownPackages, extractLoop, hc, hs, ho]

theorem category_extraction_correct_witness :
    extract_category ("blue_" ++ "ES_SPX" ++ "_state_" ++ "volume_zero") = "volume_zero" ∧
    resolveCategory "blue_SPX_full" = none := by
  constructor
  · exact category_extraction_correct.1 "ES_SPX" "volume_zero"
      (by decide) (by decide) (by decide)
  · exact category_extraction_correct.2 "blue_SPX_full" (by decide)

/-- C10: a channel whose matched package delimiter has nothing after it
extracts the empty string, which the handler treats exactly like a missing
package token (early drop); hence every resolved category is non-empty. -/
theorem empty_category_dropped :
    (∀ p : String,
       pyIn "_classic_" (p ++ "_state_") = false →
       pyIn "_state_" (p ++ "_state") = false →
       extract_category (p ++ "_state_") = "" ∧ resolveCategory (p ++ "_state_") = none) ∧
    (∀ channel c, resolveCategory channel = some c → c ≠ "") := by
  constructor
  · intro p h1 h2
    have hch : (p ++ "_state_").data = p.data ++ ("_state_".data ++ []) := by
      simp [string_data_append]
    have h2' : ¬ ("_state_".data <:+: (p.data ++ "_state".data)) := by
      intro hin
      have : p.data ++ "_state".data = (p ++ "_state").data := by
        simp [string_data_append]
      rw [this] at hin
      exact (of_decide_eq_false h2) hin
    have h3' : ¬ ("_state_".data <:+: ([] : List Char)) := by
      intro hin
      exact absurd (List.infix_nil.mp hin) (by decide)
    have hext : extract_category (p ++ "_state_") = "" :=
      extract_category_state_split _ _ _ hch h1 h2' h3'
    refine ⟨hext, ?_⟩
    simp [resolveCategory, hext]
  · intro channel c h
    unfold resolveCategory at h
    by_cases hc : extract_category channel = ""
    · simp [hc] at h
    · simp only [hc, if_false] at h
      rw [← Option.some_inj.mp h]
      exact hc

theorem empty_category_dropped_witness :
    extract_category ("blue_SPX" ++ "_state_") = "" ∧
    resolveCategory ("blue_SPX" ++ "_state_") = none ∧
    "volume_one" ≠ "" := by
  refine ⟨?_, ?_, ?_⟩
  · exact (empty_category_dropped.1 "blue_SPX" (by decide) (by decide)).1
  · exact (empty_category_dropped.1 "blue_SPX" (by decide) (by decide)).2
  · exact empty_category_dropped.2 "blue_ES_SPX_state_volume_one" "volume_one" (by decide)

/-- C1: the decoded gex spot is always the wire spot over 100, and an
absent wire spot (which proto3 reads as 0) decodes to exactly 0, with the
decoder total on parsed messages. -/
theorem gex_spot_scaling (m : Gex) :
    (decompress_gex_message m).spot = (m.spot : ℚ) / 100 ∧
    (m.spot = 0 → (decompress_gex_message m).spot = 0) := by
  constructor
  · simp [decompress_gex_message, pyOrInt_zero]
  · intro h
    simp [decompress_gex_message, pyOrInt, h]

theorem gex_spot_scaling_witness :
    (decompress_gex_message gexMsg0).spot = (gexMsg0.spot : ℚ) / 100 ∧
    (decompress_gex_message gexMsg0).spot = 0 :=
  ⟨(gex_spot_scaling gexMsg0).1, (gex_spot_scaling gexMsg0).2 rfl⟩

/-- C9: in the gex decoder and the binary OptionProfile sub-path, a wire
`sec_min_dte` of 0 (present or absent, indistinguishable under proto3)
decodes to 1, and the decoded `sec_min_dte` is never 0. -/
theorem sec_min_dte_never_zero (g : Gex) (p : OptionProfile) :
    ((g.sec_min_dte = 0 → (decompress_gex_message g).sec_min_dte = 1) ∧
     (decompress_gex_message g).sec_min_dte ≠ 0) ∧
    ((p.sec_min_dte = 0 → (protoSub p).sec_min_dte = 1) ∧
     (protoSub p).sec_min_dte ≠ 0) := by
  refine ⟨⟨fun h => ?_, ?_⟩, ⟨fun h => ?_, ?_⟩⟩
  · simp [decompress_gex_message, pyOrInt, h]
  · simp only [decompress_gex_message, pyOrInt]
    split <;> simp_all
  · simp [protoSub, pyOrInt, h]
  · simp only [protoSub, pyOrInt]
    split <;> simp_all

theorem sec_min_dte_never_zero_witness :
    (decompress_gex_message gexMsg0).sec_min_dte = 1 ∧
    (decompress_gex_message gexMsg0).sec_min_dte ≠ 0 ∧
    (protoSub opMsg0).sec_min_dte = 1 ∧
    (protoSub opMsg0).sec_min_dte ≠ 0 :=
  ⟨(sec_min_dte_never_zero gexMsg0 opMsg0).1.1 rfl,
   (sec_min_dte_never_zero gexMsg0 opMsg0).1.2,
   (sec_min_dte_never_zero gexMsg0 opMsg0).2.1 rfl,
   (sec_min_dte_never_zero gexMsg0 opMsg0).2.2⟩

/-- C7: each binary-path mini contract decodes to strike over 100,
call_ivol and put_ivol over 1000, call_cvolume over 100, call priors each
over 100, the raw put_cvolume, and the raw put priors (empty when the
optional container is absent). -/
theorem binary_minicontract_scaling (m : OptionProfile) :
    (protoSub m).mini_contracts = m.mini_contracts.map (fun mc =>
      ((mc.strike : ℚ) / 100,
       (mc.call_ivol : ℚ) / 1000,
       (mc.put_ivol : ℚ) / 1000,
       (mc.call_cvolume : ℚ) / 100,
       mc.call_cvolume_priors.map (fun v : Int => (v : ℚ) / 100),
       mc.put_cvolume,
       match mc.put_cvolume_priors with
       | some pv => pv.values
       | none => [])) := by
  simp only [protoSub]
  apply List.map_congr_left
  intro mc _
  simp only [pyOrInt_zero, List.map_id]

/-- C6 counterexample: the decoder carries twenty raw signed-integer state
fields, not eighteen. -/
theorem orderflow_state_field_count :
    (decompress_orderflow_message ofMsg0).stateFields.length = 20 ∧
    (decompress_orderflow_message ofMsg0).stateFields.length ≠ 18 := by
  constructor
  · rfl
  · decide

/-- C6 (amended): the decoded orderflow record scales exactly nine fields
by 100 (spot and the eight gamma fields), carries its twenty signed-integer
state fields raw, carries the six orderflow delta fields raw, and leaves
timestamp and ticker untouched. -/
theorem orderflow_scaling (m : Orderflow) :
    (decompress_orderflow_message m).timestamp = m.timestamp ∧
    (decompress_orderflow_message m).ticker = m.ticker ∧
    (decompress_orderflow_message m).spot = (m.spot : ℚ) / 100 ∧
    (decompress_orderflow_message m).zero_major_long_gamma = (m.zero_major_long_gamma : ℚ) / 100 ∧
    (decompress_orderflow_message m).zero_major_short_gamma = (m.zero_major_short_gamma : ℚ) / 100 ∧
    (decompress_orderflow_message m).one_major_long_gamma = (m.one_major_long_gamma : ℚ) / 100 ∧
    (decompress_orderflow_message m).one_major_short_gamma = (m.one_major_short_gamma : ℚ) / 100 ∧
    (decompress_orderflow_message m).zero_major_call_gamma = (m.zero_major_call_gamma : ℚ) / 100 ∧
    (decompress_orderflow_message m).zero_major_put_gamma = (m.zero_major_put_gamma : ℚ) / 100 ∧
    (decompress_orderflow_message m).one_major_call_gamma = (m.one_major_call_gamma : ℚ) / 100 ∧
    (decompress_orderflow_message m).one_major_put_gamma = (m.one_major_put_gamma : ℚ) / 100 ∧
    (decompress_orderflow_message m).stateFields =
      [m.zero_convexity_ratio, m.one_convexity_ratio,
       m.zero_gex_ratio, m.one_gex_ratio,
       m.zero_net_vanna, m.one_net_vanna,
       m.zero_net_charm, m.one_net_charm,
       m.zero_agg_total_dex, m.one_agg_total_dex,
       m.zero_agg_call_dex, m.one_agg_call_dex,
       m.zero_agg_put_dex, m.one_agg_put_dex,
       m.zero_net_total_dex, m.one_net_total_dex,
       m.zero_net_call_dex, m.one_net_call_dex,
       m.zero_net_put_dex, m.one_net_put_dex] ∧
    (decompress_orderflow_message m).stateFields.length = 20 ∧
    (decompress_orderflow_message m).dex_orderflow = m.dex_orderflow ∧
    (decompress_orderflow_message m).gex_orderflow = m.gex_orderflow ∧
    (decompress_orderflow_message m).convexity_orderflow = m.convexity_orderflow ∧
    (decompress_orderflow_message m).one_dex_orderflow = m.one_dex_orderflow ∧
    (decompress_orderflow_message m).one_gex_orderflow = m.one_gex_orderflow ∧
    (decompress_orderflow_message m).one_convexity_orderflow = m.one_convexity_orderflow := by
  simp [decompress_orderflow_message, OrderflowRecord.stateFields, pyOrInt_zero]

/-- C3: greek decoding lands on the JSON sub-path (ok or json-tagged
error) exactly when the category is volume_zero or volume_one; every other
category lands on the binary sub-path. -/
theorem greek_variant_selection (b : GreekBytes) (cat : String) :
    tookJsonPath (decompress_greek_message b cat) = true ↔
      (cat = "volume_zero" ∨ cat = "volume_one") := by
  unfold decompress_greek_message
  by_cases h : cat ∈ jsonCategories
  · rw [if_pos h]
    have hmem : cat = "volume_zero" ∨ cat = "volume_one" := by
      simpa [jsonCategories] using h
    cases hj : jsonSub b.asJson <;>
      simp [tookJsonPath, Except.map, Except.mapError, hmem]
  · rw [if_neg h]
    have hne : ¬ (cat = "volume_zero" ∨ cat = "volume_one") := by
      simpa [jsonCategories] using h
    cases hp : b.asProto <;> simp [tookJsonPath, hne]

/-- C5 counterexample: a payload that is valid UTF-8 and valid JSON but
lacks both required top-level keys decodes successfully, with timestamp and
ticker null, instead of failing. -/
theorem json_missing_required_keys_no_error :
    decompress_greek_message { asJson := .parsed (.obj []), asProto := none } "volume_zero" =
      .ok (.json { timestamp := .null, ticker := .null, spot := .num 0,
                   min_dte := .num 0, sec_min_dte := .num 1,
                   major_positive := .num 0, major_negative := .num 0,
                   major_long_gamma := .num 0, major_short_gamma := .num 0,
                   mini_contracts := [] }) := rfl

/-- C5 (amended): the JSON sub-path fails with a json-tagged error on
invalid UTF-8 or invalid JSON syntax, and the absence of any top-level key
(including timestamp and ticker) yields the documented default — null for
timestamp and ticker — never an error. -/
theorem json_path_error_and_defaults :
    (∀ (p : Option OptionProfile), ∀ cat ∈ jsonCategories,
       decompress_greek_message { asJson := .invalidUtf8, asProto := p } cat =
         .error (.jsonError "UnicodeDecodeError") ∧
       decompress_greek_message { asJson := .invalidJson, asProto := p } cat =
         .error (.jsonError "JSONDecodeError")) ∧
    (∀ (kvs : List (String × JsonVal)) (r : GreekJsonRecord),
       jsonSub (.parsed (.obj kvs)) = .ok r →
       (jget kvs "timestamp" = none → r.timestamp = .null) ∧
       (jget kvs "ticker" = none → r.ticker = .null) ∧
       (jget kvs "spot" = none → r.spot = .num 0) ∧
       (jget kvs "min_dte" = none → r.min_dte = .num 0) ∧
       (jget kvs "sec_min_dte" = none → r.sec_min_dte = .num 1) ∧
       (jget kvs "major_call_gamma" = none → r.major_positive = .num 0) ∧
       (jget kvs "major_put_gamma" = none → r.major_negative = .num 0) ∧
       (jget kvs "major_long_gamma" = none → r.major_long_gamma = .num 0) ∧
       (jget kvs "major_short_gamma" = none → r.major_short_gamma = .num 0) ∧
       (jget kvs "mini_contracts" = none → r.mini_contracts = [])) := by
  constructor
  · intro p cat hcat
    constructor <;>
      simp [decompress_greek_message, hcat, jsonSub, Except.map, Except.mapError]
  · intro kvs r h
    simp only [jsonSub] at h
    cases hm : jsonMinis ((jget kvs "mini_contracts").getD (.arr [])) with
    | error e => rw [hm] at h; exact absurd h (by simp)
    | ok rows =>
      rw [hm] at h
      injection h with h
      subst h
      refine ⟨fun ht => by simp [ht], fun ht => by simp [ht], fun ht => by simp [ht],
              fun ht => by simp [ht], fun ht => by simp [ht], fun ht => by simp [ht],
              fun ht => by simp [ht], fun ht => by simp [ht], fun ht => by simp [ht],
              fun ht => ?_⟩
      rw [ht] at hm
      simp only [Option.getD_none, jsonMinis, List.mapM_nil] at hm
      injection hm with hm
      exact hm.symm

theorem json_path_error_and_defaults_witness :
    decompress_greek_message { asJson := .invalidUtf8, asProto := none } "volume_zero" =
      .error (.jsonError "UnicodeDecodeError") ∧
    jRec0.timestamp = .null ∧
    jRec0.ticker = .null ∧
    jRec0.mini_contracts = [] := by
  refine ⟨(json_path_error_and_defaults.1 none "volume_zero" (by decide)).1, ?_, ?_, ?_⟩
  · exact (json_path_error_and_defaults.2 kvs0 jRec0 rfl).1 rfl
  · exact (json_path_error_and_defaults.2 kvs0 jRec0 rfl).2.1 rfl
  · exact (json_path_error_and_defaults.2 kvs0 jRec0 rfl).2.2.2.2.2.2.2.2.2 rfl

/-- C4 counterexample: a gex-tagged envelope on a channel with no
recognizable package token is dropped by the early category check and never
reaches the gex decoder. -/
theorem router_drops_gex_without_category :
    on_group_message evGexNoCat = .dropped ∧
    RouteResult.dropped ≠ .gexRecord (decompress_gex_message gexMsg0) := by
  constructor
  · rfl
  · intro h
    exact absurd h (by simp)

/-- C4 (amended): category resolution runs for every family before
routing — an unresolved category drops the envelope whatever the type tag;
once a category resolves, both the gex and the orderflow families dispatch
to their decoders with the category value ignored. -/
theorem router_category_gate :
    (∀ e : GroupEvent, resolveCategory e.group = none → on_group_message e = .dropped) ∧
    (∀ (e : GroupEvent) (cat : String) (m : Gex),
       resolveCategory e.group = some cat →
       pyIn "proto.gex" e.type_url = true →
       e.gexView = some m →
       on_group_message e = .gexRecord (decompress_gex_message m)) ∧
    (∀ (e : GroupEvent) (cat : String) (m : Orderflow),
       resolveCategory e.group = some cat →
       pyIn "proto.gex" e.type_url = false →
       pyIn "proto.greek" e.type_url = false →
       pyIn "proto.orderflow" e.type_url = true →
       e.orderflowView = some m →
       on_group_message e = .orderflowRecord (decompress_orderflow_message m)) := by
  refine ⟨?_, ?_, ?_⟩
  · intro e h
    simp [on_group_message, h]
  · intro e cat m hcat hgex hview
    simp [on_group_message, hcat, hgex, hview]
  · intro e cat m hcat hgex hgreek hof hview
    simp [on_group_message, hcat, hgex, hgreek, hof, hview]

theorem router_category_gate_witness :
    on_group_message evGexNoCat = .dropped ∧
    on_group_message evGex1 = .gexRecord (decompress_gex_message gexMsg0) ∧
    on_group_message evOf1 = .orderflowRecord (decompress_orderflow_message ofMsg0) := by
  refine ⟨?_, ?_, ?_⟩
  · exact router_category_gate.1 evGexNoCat (by decide)
  · exact router_category_gate.2.1 evGex1 "gex_full" gexMsg0 (by decide) (by decide) rfl
  · exact router_category_gate.2.2 evOf1 "orderflow" ofMsg0 (by decide) (by decide)
      (by decide) (by decide) rfl
